import Mathlib

/-!
Verification development for the coreimage-raw-convert conversion
orchestration layer.  The definitions below are shallow embeddings of

  * the native option parsing and pipeline of `ConvertRaw`,
    `ConvertRawAsync` and `ConvertRawAsyncWorker::Execute`
    (src/unnamed/part_013), and
  * the TypeScript entry points `convertRaw` / `convertRawAsync`
    (src/src/index.ts).

C `double` values are modelled as `Rat`: every comparison the code
performs on them (`>= 0`, `!= 0.0`, `!= 1.0`, `>= 0.0`) is an exact
order/equality test that `Rat` reproduces faithfully for every value a
caller can pass as a JS number literal.
-/

namespace RawConvert

/-- Model of a loosely-typed JavaScript value stored in an options bag.
`other` stands for any value that is neither a boolean, a number nor a
string (objects, arrays, null, undefined reached through `Nan::Get`):
the native option getters only test `IsBoolean`/`IsNumber`/`IsString`,
so all such values behave identically. -/
inductive JSVal where
  | bool (b : Bool)
  | num (q : Rat)
  | str (s : String)
  | other
deriving DecidableEq

/-- An options bag: the own enumerable properties of the JS options
object, as an association list (JS objects have no duplicate keys;
`List.lookup` returns the first match). -/
abbrev OptionsBag := List (String × JSVal)

/-- Embedding of the `getBoolOption` lambda of `ConvertRaw` /
`ConvertRawAsync`: if the key is present and the value `IsBoolean`,
take it, otherwise keep the target's current (default) value. -/
def getBoolOption (bag : OptionsBag) (key : String) (dflt : Bool) : Bool :=
  match bag.lookup key with
  | some (JSVal.bool b) => b
  | _ => dflt

/-- Embedding of the `getNumberOption` lambda: if the key is present
and the value `IsNumber`, take it, otherwise keep the default. -/
def getNumberOption (bag : OptionsBag) (key : String) (dflt : Rat) : Rat :=
  match bag.lookup key with
  | some (JSVal.num q) => q
  | _ => dflt

/-- Embedding of the `getStringOption` lambda: if the key is present
and the value `IsString`, take it, otherwise keep the default. -/
def getStringOption (bag : OptionsBag) (key : String) (dflt : String) : String :=
  match bag.lookup key with
  | some (JSVal.str s) => s
  | _ => dflt

/-- Embedding of the native `InternalConversionOptions` struct; the
field defaults are those of the struct declaration, which coincide
with the local defaults declared at the top of `ConvertRaw`. -/
structure InternalConversionOptions where
  lensCorrection : Bool := true
  exposure : Rat := 0
  boost : Rat := 1
  boostShadowAmount : Rat := 0
  baselineExposure : Rat := 0
  neutralTemperature : Rat := -1
  neutralTint : Rat := -1
  disableGamutMap : Bool := false
  allowDraftMode : Bool := false
  ignoreImageOrientation : Bool := false
  colorNoiseReductionAmount : Rat := -1
  luminanceNoiseReductionAmount : Rat := -1
  contrastAmount : Rat := -1
  sharpnessAmount : Rat := -1
  noiseReductionAmount : Rat := -1
  localToneMapAmount : Rat := -1
  scaleFactor : Rat := 1
  quality : Rat := -1
  embedThumbnail : Bool := false
  optimizeColorForSharing : Bool := false
  preserveExifData : Bool := true
  extractMetadata : Bool := false
  inputFormat : String := ""
deriving DecidableEq

/-- Embedding of the option-extraction block shared verbatim by
`ConvertRaw` (lines 922-987) and `ConvertRawAsync` (lines 1388-1453):
each recognized key is read with the getter matching its type and a
type mismatch leaves the default in place. -/
def parseOptions (bag : OptionsBag) : InternalConversionOptions :=
  { lensCorrection := getBoolOption bag "lensCorrection" true
    exposure := getNumberOption bag "exposure" 0
    boost := getNumberOption bag "boost" 1
    boostShadowAmount := getNumberOption bag "boostShadowAmount" 0
    baselineExposure := getNumberOption bag "baselineExposure" 0
    neutralTemperature := getNumberOption bag "neutralTemperature" (-1)
    neutralTint := getNumberOption bag "neutralTint" (-1)
    disableGamutMap := getBoolOption bag "disableGamutMap" false
    allowDraftMode := getBoolOption bag "allowDraftMode" false
    ignoreImageOrientation := getBoolOption bag "ignoreImageOrientation" false
    colorNoiseReductionAmount := getNumberOption bag "colorNoiseReductionAmount" (-1)
    luminanceNoiseReductionAmount := getNumberOption bag "luminanceNoiseReductionAmount" (-1)
    contrastAmount := getNumberOption bag "contrastAmount" (-1)
    sharpnessAmount := getNumberOption bag "sharpnessAmount" (-1)
    noiseReductionAmount := getNumberOption bag "noiseReductionAmount" (-1)
    localToneMapAmount := getNumberOption bag "localToneMapAmount" (-1)
    scaleFactor := getNumberOption bag "scaleFactor" 1
    quality := getNumberOption bag "quality" (-1)
    embedThumbnail := getBoolOption bag "embedThumbnail" false
    optimizeColorForSharing := getBoolOption bag "optimizeColorForSharing" false
    preserveExifData := getBoolOption bag "preserveExifData" true
    extractMetadata := getBoolOption bag "extractMetadata" false
    inputFormat := getStringOption bag "inputFormat" "" }

/-- The `rawOptions` dictionary handed to
`[CIFilter filterWithImageURL:options:]`, one `Option` field per
Render-Engine key that the code may set.  `none` means the key is
absent from the dictionary. -/
structure CIRawFilterOptions where
  enableVendorLensCorrection : Bool
  boost : Rat
  ev : Rat
  baselineExposure : Option Rat
  boostShadowAmount : Option Rat
  neutralTemperature : Option Rat
  neutralTint : Option Rat
  disableGamutMap : Option Bool
  allowDraftMode : Option Bool
  ignoreImageOrientation : Option Bool
  colorNoiseReductionAmount : Option Rat
  luminanceNoiseReductionAmount : Option Rat
  contrast : Option Rat
  sharpness : Option Rat
  noiseReductionAmount : Option Rat
  localToneMapAmount : Option Rat
  scaleFactor : Option Rat
  enableEDRMode : Bool
deriving DecidableEq

/-- Embedding of the rawOptions-building block shared verbatim by
`ConvertRaw` (lines 1076-1141) and
`ConvertRawAsyncWorker::Execute` (lines 432-497).  The two
`@available` guards are modelled in their available branch (macOS
11.1 / 10.14 present): under the unavailable branch
`localToneMapAmount` is likewise omitted and the EDR key is absent. -/
def buildRawOptions (o : InternalConversionOptions) : CIRawFilterOptions :=
  { enableVendorLensCorrection := o.lensCorrection
    boost := o.boost
    ev := o.exposure
    baselineExposure := if o.baselineExposure ≠ 0 then some o.baselineExposure else none
    boostShadowAmount := if o.boostShadowAmount ≠ 0 then some o.boostShadowAmount else none
    neutralTemperature := if o.neutralTemperature ≥ 0 then some o.neutralTemperature else none
    neutralTint := if o.neutralTint ≥ 0 then some o.neutralTint else none
    disableGamutMap := if o.disableGamutMap then some true else none
    allowDraftMode := if o.allowDraftMode then some true else none
    ignoreImageOrientation := if o.ignoreImageOrientation then some true else none
    colorNoiseReductionAmount :=
      if o.colorNoiseReductionAmount ≥ 0 then some o.colorNoiseReductionAmount else none
    luminanceNoiseReductionAmount :=
      if o.luminanceNoiseReductionAmount ≥ 0 then some o.luminanceNoiseReductionAmount else none
    contrast := if o.contrastAmount ≥ 0 then some o.contrastAmount else none
    sharpness := if o.sharpnessAmount ≥ 0 then some o.sharpnessAmount else none
    noiseReductionAmount :=
      if o.noiseReductionAmount ≥ 0 then some o.noiseReductionAmount else none
    localToneMapAmount :=
      if o.localToneMapAmount ≥ 0 then some o.localToneMapAmount else none
    scaleFactor := if o.scaleFactor ≠ 1 then some o.scaleFactor else none
    enableEDRMode := false }

/-- List of formats the encoder treats as lossy (quality applies),
read off the condition at `ConvertRaw` line 1265 / `Execute` line 730. -/
def lossyFormats : List String := ["jpeg", "jpg", "heif", "heic", "jpeg2000", "jp2"]

/-- List of formats getting thumbnail embedding
(`ConvertRaw` line 1271 / `Execute` line 736). -/
def thumbnailFormats : List String := ["jpeg", "jpg", "heif", "heic"]

/-- The format-specific `properties` dictionary handed to
`CGImageDestinationAddImage`: `none` means the property key is absent. -/
structure EncodeProperties where
  lossyCompressionQuality : Option Rat
  embedThumbnail : Option Bool
  optimizeColorForSharing : Option Bool
deriving DecidableEq

/-- Embedding of the properties-building block shared verbatim by
`ConvertRaw` (lines 1262-1278) and `Execute` (lines 727-743):
quality for lossy formats with default 0.9, thumbnail for jpeg/heif
families when requested, color-sharing optimization for all formats. -/
def formatProperties (format : String) (o : InternalConversionOptions) : EncodeProperties :=
  { lossyCompressionQuality :=
      if lossyFormats.contains format then
        some (if o.quality ≥ 0 then o.quality else 9/10)
      else none
    embedThumbnail :=
      if thumbnailFormats.contains format ∧ o.embedThumbnail then some true else none
    optimizeColorForSharing :=
      if o.optimizeColorForSharing then some true else none }

/-- Observable side effects of one native conversion, in execution
order.  `createFilter` records the parameter dictionary passed to the
Render Engine and `addImage` the properties dictionary passed to the
Container Encoder together with whether source metadata was merged in. -/
inductive Effect where
  | readInputFile
  | writeTemp
  | removeTemp
  | readSourceMetadata
  | createFilter (ro : CIRawFilterOptions)
  | renderCGImage
  | extractRgb
  | createDestination
  | addImage (props : EncodeProperties) (mergedSourceMetadata : Bool)
  | finalizeDest
deriving DecidableEq

/-- Outcomes of the external collaborators (file system, CoreImage,
ImageIO) during one conversion; the pipeline is deterministic given
these.  `sourceProps` says whether `CGImageSourceCreateWithURL` +
`CGImageSourceCopyPropertiesAtIndex` yield a metadata dictionary when
asked. -/
structure EngineWorld where
  fileReadOk : Bool
  tempWriteOk : Bool
  sourceProps : Bool
  filterOk : Bool
  outputImageOk : Bool
  extentEmpty : Bool
  cgImageOk : Bool
  rgbExtractOk : Bool
  destinationOk : Bool
  finalizeOk : Bool
deriving DecidableEq

/-- The first argument of the native entry points: a file path string,
a Buffer of the given length, or any other value. -/
inductive NativeInput where
  | path (s : String)
  | buffer (len : Nat)
  | other
deriving DecidableEq

/-- Result of a native conversion: an error message, or success.  The
effect trace captures everything the claims observe about the run. -/
abbrev PipelineResult := Except String Unit × List Effect

/-- Shared tail of both native pipelines, starting right after the
input bytes have been resolved (`ConvertRaw` lines 1027-1323 and
`Execute` lines 384-780, which are line-for-line identical from the
temp-file write onwards).  `t0` is the trace accumulated while
resolving the input; the file-path flag only picks the staged file's
extension, which no claim observes.  The temp-write failure message
carries a dynamic OS description suffix in the code; it is modelled by
its fixed prefix. -/
def pipelineAfterLoad (_isFilePath : Bool) (format : String)
    (o : InternalConversionOptions) (w : EngineWorld) (t0 : List Effect) : PipelineResult :=
  let t1 := t0 ++ [Effect.writeTemp]
  if w.tempWriteOk = false then (.error "Failed to write temp file", t1)
  else
    let t2 := t1 ++ (if o.preserveExifData = true then [Effect.readSourceMetadata] else [])
    let t3 := t2 ++ [Effect.createFilter (buildRawOptions o), Effect.removeTemp]
    if w.filterOk = false then (.error "Failed to create CIRAWFilter from image data", t3)
    else if w.outputImageOk = false then (.error "Failed to get output image from RAW filter", t3)
    else if w.extentEmpty = true then (.error "Output image has empty extent", t3)
    else
      let t4 := t3 ++ [Effect.renderCGImage]
      if w.cgImageOk = false then (.error "Failed to create CGImage from CIImage", t4)
      else if format == "rgb" then
        let t5 := t4 ++ [Effect.extractRgb]
        if w.rgbExtractOk = true then (.ok (), t5)
        else (.error "Failed to extract RGB data from image", t5)
      else if format == "jpeg" || format == "jpg" || format == "png" || format == "tiff" ||
          format == "tif" || format == "jpeg2000" || format == "jp2" || format == "heif" ||
          format == "heic" then
        let t5 := t4 ++ [Effect.createDestination]
        if w.destinationOk = false then (.error "Failed to create image destination", t5)
        else
          let merged := o.preserveExifData && w.sourceProps
          let t6 := t5 ++ [Effect.addImage (formatProperties format o) merged,
            Effect.finalizeDest]
          if w.finalizeOk = false then (.error "Failed to finalize image destination", t6)
          else (.ok (), t6)
      else
        (.error ("Unsupported output format: " ++ format ++
          ". Supported formats: jpeg, jpg, png, tiff, tif, jpeg2000, jp2, heif, heic, rgb"), t4)

/-- Embedding of the synchronous native entry point `ConvertRaw`
(part_013 lines 877-1324).  `bag` is `info[2]` when it `IsObject`,
else `none` (the defaults then stand, identical to the struct
defaults).  The `isFilePath` flag fed to the shared tail records
whether `info[0]->IsString()`, which the staging code re-tests to pick
a temp-file extension. -/
def ConvertRaw (input : NativeInput) (format : String) (bag : Option OptionsBag)
    (w : EngineWorld) : PipelineResult :=
  let o := match bag with
    | some b => parseOptions b
    | none => {}
  match input with
  | NativeInput.path s =>
      if s = "" then (.error "File path cannot be empty", [])
      else if w.fileReadOk = false then (.error "Failed to read file from path", [Effect.readInputFile])
      else pipelineAfterLoad true format o w [Effect.readInputFile]
  | NativeInput.buffer len =>
      if len = 0 then (.error "Input buffer is empty", [])
      else pipelineAfterLoad false format o w []
  | NativeInput.other =>
      (.error "First argument must be a Buffer or file path string", [])

/-- Embedding of `ConvertRawAsyncWorker::Execute` (part_013 lines
361-781), the background-thread body queued by `ConvertRawAsync`.
The worker's `isFilePath_`/`bufferData_` state is reconstructed from
`input`: `ConvertRawAsync` only constructs a worker for a string or a
Buffer, and the worker's constructor leaves `bufferData_` null for an
empty Buffer, which `Execute` reports as invalid buffer data. -/
def ConvertRawAsyncExecute (input : NativeInput) (format : String)
    (o : InternalConversionOptions) (w : EngineWorld) : PipelineResult :=
  match input with
  | NativeInput.path _ =>
      if w.fileReadOk = false then (.error "Failed to read file from path", [Effect.readInputFile])
      else pipelineAfterLoad true format o w [Effect.readInputFile]
  | NativeInput.buffer len =>
      if len = 0 then (.error "Invalid buffer data", [])
      else pipelineAfterLoad false format o w []
  | NativeInput.other =>
      (.error "Invalid buffer data", [])

/-- The RGBA-to-RGB stripping loop of `ExtractRgbData` (lines 206-211
and 265-269, identical): step through the source four bytes at a time,
copying the first three of each group and skipping the alpha byte. -/
def stripAlpha : List Nat → List Nat
  | r :: g :: b :: _ :: rest => r :: g :: b :: stripAlpha rest
  | _ => []

/-- Model of a `CGImageRef` as the claims observe it: dimensions, the
RGBA pixel content that `CGContextDrawImage` reproduces into an
off-screen 4-byte-per-pixel bitmap, and the optional byte block the
image's data provider exposes.  `providerData_pixels` is the
CoreGraphics contract the spec relies on: when the provider's copy has
exactly the 4-bytes-per-pixel length that `ExtractRgbData` tests for,
it is the image's RGBA backing store itself. -/
structure CGImage where
  width : Nat
  height : Nat
  pixels : List Nat
  pixels_len : pixels.length = width * height * 4
  providerData : Option (List Nat)
  providerData_pixels : ∀ d, providerData = some d →
    d.length = width * height * 4 → d = pixels

/-- The direct-data-provider path of `ExtractRgbData` (lines 188-225):
copy the provider's data and, when its length is exactly
`width * height * 4`, strip alpha; otherwise signal that the fallback
must run. -/
def extractRgbDirect (img : CGImage) : Option (List Nat) :=
  match img.providerData with
  | some d =>
      if d.length = img.width * img.height * 4 then some (stripAlpha d) else none
  | none => none

/-- The bitmap-context fallback path of `ExtractRgbData` (lines
227-278): draw the image into a fresh `width * 4`-bytes-per-row RGBA
bitmap and strip alpha from it. -/
def extractRgbFallback (img : CGImage) : List Nat :=
  stripAlpha img.pixels

/-- Embedding of `ExtractRgbData` (lines 186-279): the direct path when
it applies, the bitmap-context fallback otherwise (allocation and
context-creation failures, the only ways the C function returns
false, are not modelled). -/
def ExtractRgbData (img : CGImage) : List Nat :=
  match extractRgbDirect img with
  | some out => out
  | none => extractRgbFallback img

/-- Model of a JavaScript value arriving at the TypeScript entry
points: a Buffer of a given length, a primitive, a plain object (the
options bag), null or undefined. -/
inductive JSArg where
  | buffer (len : Nat)
  | str (s : String)
  | num (q : Rat)
  | bool (b : Bool)
  | obj (bag : OptionsBag)
  | jsNull
  | undefined
deriving DecidableEq

/-- `Buffer.isBuffer`. -/
def isBufferArg : JSArg → Bool
  | JSArg.buffer _ => true
  | _ => false

/-- `typeof x === 'string'`. -/
def isStringArg : JSArg → Bool
  | JSArg.str _ => true
  | _ => false

/-- The string content of a string-typed argument (only consulted
after an `isStringArg` test, like the TS code's narrowing). -/
def argStr : JSArg → String
  | JSArg.str s => s
  | _ => ""

/-- `Buffer.isBuffer(x) && x.length === 0`. -/
def bufferIsEmpty : JSArg → Bool
  | JSArg.buffer len => len = 0
  | _ => false

/-- `typeof x === 'string' && x.trim() === ''`. -/
def stringIsBlank : JSArg → Bool
  | JSArg.str s => s.trim = ""
  | _ => false

/-- JavaScript truthiness of a property value. -/
def valTruthy : JSVal → Bool
  | JSVal.bool b => b
  | JSVal.num q => q ≠ 0
  | JSVal.str s => s ≠ ""
  | JSVal.other => true

/-- JavaScript truthiness of an argument (a Buffer is an object and
hence truthy even when empty; NaN, unmodelled by `Rat`, is the one
number this misses). -/
def jsTruthy : JSArg → Bool
  | JSArg.buffer _ => true
  | JSArg.str s => s ≠ ""
  | JSArg.num q => q ≠ 0
  | JSArg.bool b => b
  | JSArg.obj _ => true
  | JSArg.jsNull => false
  | JSArg.undefined => false

/-- `typeof x === 'object'` (true for plain objects, Buffers and
null). -/
def typeofIsObject : JSArg → Bool
  | JSArg.obj _ => true
  | JSArg.buffer _ => true
  | JSArg.jsNull => true
  | _ => false

/-- `options?.inputFormat` followed by the `!` coercion: the optional
chain yields undefined (falsy) unless `options` is an object owning
the property. -/
def inputFormatTruthy : JSArg → Bool
  | JSArg.obj bag =>
      match bag.lookup "inputFormat" with
      | some v => valTruthy v
      | none => false
  | _ => false

/-- Errors thrown or rejected by the TypeScript entry points,
distinguishing `TypeError` from `Error` as the code does. -/
inductive ConvError where
  | typeError (msg : String)
  | error (msg : String)
deriving DecidableEq

/-- The supported-format list `Object.values(OutputFormat)` in
declaration order (src/src/index.ts lines 370-381). -/
def supportedFormats : List String :=
  ["jpeg", "jpg", "png", "tiff", "tif", "jpeg2000", "jp2", "heif", "heic", "rgb"]

/-- What a successful validation passes to the native addon: the raw
input, the normalized format and the merged options value. -/
structure NativeCall where
  input : JSArg
  format : String
  mergedOptions : JSArg
deriving DecidableEq

/-- Embedding of the TypeScript `convertRaw` (src/src/index.ts lines
599-646): the validation chain, ending in the native call. -/
def convertRaw (input outputFormat options : JSArg) : Except ConvError NativeCall :=
  if ¬ isBufferArg input ∧ ¬ isStringArg input then
    .error (ConvError.typeError "Input must be a Buffer or file path string")
  else if bufferIsEmpty input then
    .error (ConvError.error "Input buffer is empty")
  else if stringIsBlank input then
    .error (ConvError.error "File path cannot be empty")
  else if ¬ isStringArg outputFormat ∨ (argStr outputFormat).trim = "" then
    .error (ConvError.typeError "Output format must be a non-empty string")
  else
    let normalizedFormat := (argStr outputFormat).toLower.trim
    if ¬ supportedFormats.contains normalizedFormat then
      .error (ConvError.error ("Unsupported output format: " ++ argStr outputFormat ++
        ". Supported formats: " ++ String.intercalate ", " supportedFormats))
    else if isBufferArg input ∧ ¬ inputFormatTruthy options then
      .error (ConvError.error "inputFormat is required when input is a Buffer")
    else
      let mergedOptions := if jsTruthy options then options else JSArg.obj []
      if mergedOptions ≠ JSArg.jsNull ∧ ¬ typeofIsObject mergedOptions then
        .error (ConvError.typeError "Options must be an object")
      else
        .ok ⟨input, normalizedFormat, mergedOptions⟩

/-- Outcome of a call to the TypeScript `convertRawAsync` as far as the
returned promise and the worker pool can observe it: an immediate
rejection during validation, or the submission of a native task. -/
inductive AsyncOutcome where
  | rejected (e : ConvError)
  | submitted (c : NativeCall)
deriving DecidableEq

/-- Embedding of the TypeScript `convertRawAsync` (src/src/index.ts
lines 657-727): the same validation chain inside the promise executor,
each failure rejecting before `addon.convertRawAsync` is called. -/
def convertRawAsync (input outputFormat options : JSArg) : AsyncOutcome :=
  if ¬ isBufferArg input ∧ ¬ isStringArg input then
    .rejected (ConvError.typeError "Input must be a Buffer or file path string")
  else if bufferIsEmpty input then
    .rejected (ConvError.error "Input buffer is empty")
  else if stringIsBlank input then
    .rejected (ConvError.error "File path cannot be empty")
  else if ¬ isStringArg outputFormat ∨ (argStr outputFormat).trim = "" then
    .rejected (ConvError.typeError "Output format must be a non-empty string")
  else
    let normalizedFormat := (argStr outputFormat).toLower.trim
    if ¬ supportedFormats.contains normalizedFormat then
      .rejected (ConvError.error ("Unsupported output format: " ++ argStr outputFormat ++
        ". Supported formats: " ++ String.intercalate ", " supportedFormats))
    else if isBufferArg input ∧ ¬ inputFormatTruthy options then
      .rejected (ConvError.error "inputFormat is required when input is a Buffer")
    else
      let mergedOptions := if jsTruthy options then options else JSArg.obj []
      if mergedOptions ≠ JSArg.jsNull ∧ ¬ typeofIsObject mergedOptions then
        .rejected (ConvError.typeError "Options must be an object")
      else
        .submitted ⟨input, normalizedFormat, mergedOptions⟩

section Theorems

/-- Helper: the synchronous entry point throws
"Options must be an object" only for a truthy non-object options
value. -/
lemma convertRaw_optionsObjectError (input fmt options : JSArg)
    (he : convertRaw input fmt options =
      .error (ConvError.typeError "Options must be an object")) :
    jsTruthy options = true ∧ typeofIsObject options = false := by
  rcases hj : jsTruthy options with _ | _
  · exfalso
    unfold convertRaw at he
    dsimp only at he
    simp only [hj, Bool.false_eq_true, if_false, reduceIte] at he
    split_ifs at he <;> simp_all [typeofIsObject]
  · refine ⟨rfl, ?_⟩
    by_cases hob : typeofIsObject options = true
    · exfalso
      unfold convertRaw at he
      dsimp only at he
      simp only [hj, reduceIte] at he
      split_ifs at he <;> simp_all
    · simpa using hob

/-- Helper: the asynchronous entry point rejects with
"Options must be an object" only for a truthy non-object options
value. -/
lemma convertRawAsync_optionsObjectError (input fmt options : JSArg)
    (he : convertRawAsync input fmt options =
      .rejected (ConvError.typeError "Options must be an object")) :
    jsTruthy options = true ∧ typeofIsObject options = false := by
  rcases hj : jsTruthy options with _ | _
  · exfalso
    unfold convertRawAsync at he
    dsimp only at he
    simp only [hj, Bool.false_eq_true, if_false, reduceIte] at he
    split_ifs at he <;> simp_all [typeofIsObject]
  · refine ⟨rfl, ?_⟩
    by_cases hob : typeofIsObject options = true
    · exfalso
      unfold convertRawAsync at he
      dsimp only at he
      simp only [hj, reduceIte] at he
      split_ifs at he <;> simp_all
    · simpa using hob

/-- C2: for every request, the asynchronous TypeScript entry point
rejects with exactly the error the synchronous one throws, and submits
a task to the native worker pool exactly when the synchronous one
reaches the native call: validation failures reject immediately and
never submit anything. -/
theorem claim_C2 (input outputFormat options : JSArg) :
    convertRawAsync input outputFormat options =
      match convertRaw input outputFormat options with
      | .error e => AsyncOutcome.rejected e
      | .ok c => AsyncOutcome.submitted c := by
  unfold convertRaw convertRawAsync
  dsimp only
  split_ifs <;> rfl

/-- C9: a falsy non-object options argument is replaced by the empty
options bag at both entry points, so it never raises
"Options must be an object"; that error arises only for a truthy
value whose typeof is not object. -/
theorem claim_C9 (input fmt options : JSArg) :
    (jsTruthy options = false →
      convertRaw input fmt options = convertRaw input fmt (JSArg.obj []) ∧
      convertRawAsync input fmt options = convertRawAsync input fmt (JSArg.obj [])) ∧
    (convertRaw input fmt options =
        .error (ConvError.typeError "Options must be an object") →
      jsTruthy options = true ∧ typeofIsObject options = false) ∧
    (convertRawAsync input fmt options =
        .rejected (ConvError.typeError "Options must be an object") →
      jsTruthy options = true ∧ typeofIsObject options = false) := by
  refine ⟨fun hf => ?_, fun he => convertRaw_optionsObjectError input fmt options he,
    fun he => convertRawAsync_optionsObjectError input fmt options he⟩
  cases options <;>
    simp_all [convertRaw, convertRawAsync, jsTruthy, inputFormatTruthy, typeofIsObject]

/-- C9 witness: evaluated at path input "p", format "jpeg" and the
falsy options value 0, the entry points behave as with an empty
options bag. -/
theorem claim_C9_witness :
    jsTruthy (JSArg.num 0) = false ∧
    convertRaw (JSArg.str "p") (JSArg.str "jpeg") (JSArg.num 0) =
      convertRaw (JSArg.str "p") (JSArg.str "jpeg") (JSArg.obj []) := by
  refine ⟨by decide, ?_⟩
  exact (claim_C9 (JSArg.str "p") (JSArg.str "jpeg") (JSArg.num 0)).1 (by decide) |>.1

def isBoolVal : Option JSVal → Bool
  | some (JSVal.bool _) => true
  | _ => false
def isNumVal : Option JSVal → Bool
  | some (JSVal.num _) => true
  | _ => false
def isStrVal : Option JSVal → Bool
  | some (JSVal.str _) => true
  | _ => false
def recognizedOptionKeys : List String :=
  ["lensCorrection", "exposure", "boost", "boostShadowAmount", "baselineExposure",
   "neutralTemperature", "neutralTint", "disableGamutMap", "allowDraftMode",
   "ignoreImageOrientation", "colorNoiseReductionAmount", "luminanceNoiseReductionAmount",
   "contrastAmount", "sharpnessAmount", "noiseReductionAmount", "localToneMapAmount",
   "scaleFactor", "quality", "embedThumbnail", "optimizeColorForSharing",
   "preserveExifData", "extractMetadata", "inputFormat"]
lemma getBoolOption_wrongType (bag : OptionsBag) (k : String) (d : Bool)
    (h : isBoolVal (bag.lookup k) = false) : getBoolOption bag k d = d := by
  cases hv : bag.lookup k with
  | none => simp [getBoolOption, hv]
  | some v => cases v <;> simp_all [isBoolVal, getBoolOption]
lemma getNumberOption_wrongType (bag : OptionsBag) (k : String) (d : Rat)
    (h : isNumVal (bag.lookup k) = false) : getNumberOption bag k d = d := by
  cases hv : bag.lookup k with
  | none => simp [getNumberOption, hv]
  | some v => cases v <;> simp_all [isNumVal, getNumberOption]
lemma getStringOption_wrongType (bag : OptionsBag) (k : String) (d : String)
    (h : isStrVal (bag.lookup k) = false) : getStringOption bag k d = d := by
  cases hv : bag.lookup k with
  | none => simp [getStringOption, hv]
  | some v => cases v <;> simp_all [isStrVal, getStringOption]
lemma lookup_none_of_unrecognized (bag : OptionsBag) (k : String)
    (hbag : ∀ p ∈ bag, recognizedOptionKeys.contains p.1 = false)
    (hk : recognizedOptionKeys.contains k = true) : bag.lookup k = none := by
  induction bag with
  | nil => rfl
  | cons p rest ih =>
      obtain ⟨pk, pv⟩ := p
      have hp := hbag (pk, pv) (by simp)
      have hne : (k == pk) = false := by
        rcases hkp : k == pk with _ | _
        · rfl
        · rw [eq_of_beq hkp] at hk
          rw [hk] at hp
          simp at hp
      rw [List.lookup_cons, hne]
      exact ih fun q hq => hbag q (List.mem_cons_of_mem _ hq)

theorem claim_C6 (bag : OptionsBag) :
    (isBoolVal (bag.lookup "lensCorrection") = false →
      (parseOptions bag).lensCorrection = true) ∧
    (isNumVal (bag.lookup "exposure") = false → (parseOptions bag).exposure = 0) ∧
    (isNumVal (bag.lookup "boost") = false → (parseOptions bag).boost = 1) ∧
    (isNumVal (bag.lookup "boostShadowAmount") = false →
      (parseOptions bag).boostShadowAmount = 0) ∧
    (isNumVal (bag.lookup "baselineExposure") = false →
      (parseOptions bag).baselineExposure = 0) ∧
    (isNumVal (bag.lookup "neutralTemperature") = false →
      (parseOptions bag).neutralTemperature = -1) ∧
    (isNumVal (bag.lookup "neutralTint") = false → (parseOptions bag).neutralTint = -1) ∧
    (isBoolVal (bag.lookup "disableGamutMap") = false →
      (parseOptions bag).disableGamutMap = false) ∧
    (isBoolVal (bag.lookup "allowDraftMode") = false →
      (parseOptions bag).allowDraftMode = false) ∧
    (isBoolVal (bag.lookup "ignoreImageOrientation") = false →
      (parseOptions bag).ignoreImageOrientation = false) ∧
    (isNumVal (bag.lookup "colorNoiseReductionAmount") = false →
      (parseOptions bag).colorNoiseReductionAmount = -1) ∧
    (isNumVal (bag.lookup "luminanceNoiseReductionAmount") = false →
      (parseOptions bag).luminanceNoiseReductionAmount = -1) ∧
    (isNumVal (bag.lookup "contrastAmount") = false →
      (parseOptions bag).contrastAmount = -1) ∧
    (isNumVal (bag.lookup "sharpnessAmount") = false →
      (parseOptions bag).sharpnessAmount = -1) ∧
    (isNumVal (bag.lookup "noiseReductionAmount") = false →
      (parseOptions bag).noiseReductionAmount = -1) ∧
    (isNumVal (bag.lookup "localToneMapAmount") = false →
      (parseOptions bag).localToneMapAmount = -1) ∧
    (isNumVal (bag.lookup "scaleFactor") = false → (parseOptions bag).scaleFactor = 1) ∧
    (isNumVal (bag.lookup "quality") = false → (parseOptions bag).quality = -1) ∧
    (isBoolVal (bag.lookup "embedThumbnail") = false →
      (parseOptions bag).embedThumbnail = false) ∧
    (isBoolVal (bag.lookup "optimizeColorForSharing") = false →
      (parseOptions bag).optimizeColorForSharing = false) ∧
    (isBoolVal (bag.lookup "preserveExifData") = false →
      (parseOptions bag).preserveExifData = true) ∧
    (isBoolVal (bag.lookup "extractMetadata") = false →
      (parseOptions bag).extractMetadata = false) ∧
    (isStrVal (bag.lookup "inputFormat") = false → (parseOptions bag).inputFormat = "") ∧
    ((∀ p ∈ bag, recognizedOptionKeys.contains p.1 = false) →
      parseOptions bag = {}) := by
  refine ⟨fun h => by simp [parseOptions, getBoolOption_wrongType _ _ _ h],
    fun h => by simp [parseOptions, getNumberOption_wrongType _ _ _ h],
    fun h => by simp [parseOptions, getNumberOption_wrongType _ _ _ h],
    fun h => by simp [parseOptions, getNumberOption_wrongType _ _ _ h],
    fun h => by simp [parseOptions, getNumberOption_wrongType _ _ _ h],
    fun h => by simp [parseOptions, getNumberOption_wrongType _ _ _ h],
    fun h => by simp [parseOptions, getNumberOption_wrongType _ _ _ h],
    fun h => by simp [parseOptions, getBoolOption_wrongType _ _ _ h],
    fun h => by simp [parseOptions, getBoolOption_wrongType _ _ _ h],
    fun h => by simp [parseOptions, getBoolOption_wrongType _ _ _ h],
    fun h => by simp [parseOptions, getNumberOption_wrongType _ _ _ h],
    fun h => by simp [parseOptions, getNumberOption_wrongType _ _ _ h],
    fun h => by simp [parseOptions, getNumberOption_wrongType _ _ _ h],
    fun h => by simp [parseOptions, getNumberOption_wrongType _ _ _ h],
    fun h => by simp [parseOptions, getNumberOption_wrongType _ _ _ h],
    fun h => by simp [parseOptions, getNumberOption_wrongType _ _ _ h],
    fun h => by simp [parseOptions, getNumberOption_wrongType _ _ _ h],
    fun h => by simp [parseOptions, getNumberOption_wrongType _ _ _ h],
    fun h => by simp [parseOptions, getBoolOption_wrongType _ _ _ h],
    fun h => by simp [parseOptions, getBoolOption_wrongType _ _ _ h],
    fun h => by simp [parseOptions, getBoolOption_wrongType _ _ _ h],
    fun h => by simp [parseOptions, getBoolOption_wrongType _ _ _ h],
    fun h => by simp [parseOptions, getStringOption_wrongType _ _ _ h],
    fun hbag => ?_⟩
  have key := fun (k : String) (hk : recognizedOptionKeys.contains k = true) =>
    lookup_none_of_unrecognized bag k hbag hk
  simp [parseOptions, getBoolOption, getNumberOption, getStringOption,
    key "lensCorrection" (by decide), key "exposure" (by decide),
    key "boost" (by decide), key "boostShadowAmount" (by decide),
    key "baselineExposure" (by decide), key "neutralTemperature" (by decide),
    key "neutralTint" (by decide), key "disableGamutMap" (by decide),
    key "allowDraftMode" (by decide), key "ignoreImageOrientation" (by decide),
    key "colorNoiseReductionAmount" (by decide),
    key "luminanceNoiseReductionAmount" (by decide), key "contrastAmount" (by decide),
    key "sharpnessAmount" (by decide), key "noiseReductionAmount" (by decide),
    key "localToneMapAmount" (by decide), key "scaleFactor" (by decide),
    key "quality" (by decide), key "embedThumbnail" (by decide),
    key "optimizeColorForSharing" (by decide), key "preserveExifData" (by decide),
    key "extractMetadata" (by decide), key "inputFormat" (by decide)]

def c6BagWrongTypes : OptionsBag :=
  [("lensCorrection", JSVal.num 1), ("exposure", JSVal.bool true), ("boost", JSVal.str "x"),
   ("boostShadowAmount", JSVal.other), ("baselineExposure", JSVal.bool false),
   ("neutralTemperature", JSVal.str "t"), ("neutralTint", JSVal.bool true),
   ("disableGamutMap", JSVal.num 0), ("allowDraftMode", JSVal.str "y"),
   ("ignoreImageOrientation", JSVal.other), ("colorNoiseReductionAmount", JSVal.bool true),
   ("luminanceNoiseReductionAmount", JSVal.str "z"), ("contrastAmount", JSVal.other),
   ("sharpnessAmount", JSVal.bool false), ("noiseReductionAmount", JSVal.str "n"),
   ("localToneMapAmount", JSVal.bool true), ("scaleFactor", JSVal.str "s"),
   ("quality", JSVal.bool true), ("embedThumbnail", JSVal.num 2),
   ("optimizeColorForSharing", JSVal.str "o"), ("preserveExifData", JSVal.num 3),
   ("extractMetadata", JSVal.str "e"), ("inputFormat", JSVal.num 4)]
def c6BagUnknownKeys : OptionsBag :=
  [("unknownKey", JSVal.num 7), ("anotherKey", JSVal.bool true)]
theorem claim_C6_witness :
    (parseOptions c6BagWrongTypes).lensCorrection = true ∧
    (parseOptions c6BagWrongTypes).exposure = 0 ∧
    (parseOptions c6BagWrongTypes).boost = 1 ∧
    (parseOptions c6BagWrongTypes).boostShadowAmount = 0 ∧
    (parseOptions c6BagWrongTypes).baselineExposure = 0 ∧
    (parseOptions c6BagWrongTypes).neutralTemperature = -1 ∧
    (parseOptions c6BagWrongTypes).neutralTint = -1 ∧
    (parseOptions c6BagWrongTypes).disableGamutMap = false ∧
    (parseOptions c6BagWrongTypes).allowDraftMode = false ∧
    (parseOptions c6BagWrongTypes).ignoreImageOrientation = false ∧
    (parseOptions c6BagWrongTypes).colorNoiseReductionAmount = -1 ∧
    (parseOptions c6BagWrongTypes).luminanceNoiseReductionAmount = -1 ∧
    (parseOptions c6BagWrongTypes).contrastAmount = -1 ∧
    (parseOptions c6BagWrongTypes).sharpnessAmount = -1 ∧
    (parseOptions c6BagWrongTypes).noiseReductionAmount = -1 ∧
    (parseOptions c6BagWrongTypes).localToneMapAmount = -1 ∧
    (parseOptions c6BagWrongTypes).scaleFactor = 1 ∧
    (parseOptions c6BagWrongTypes).quality = -1 ∧
    (parseOptions c6BagWrongTypes).embedThumbnail = false ∧
    (parseOptions c6BagWrongTypes).optimizeColorForSharing = false ∧
    (parseOptions c6BagWrongTypes).preserveExifData = true ∧
    (parseOptions c6BagWrongTypes).extractMetadata = false ∧
    (parseOptions c6BagWrongTypes).inputFormat = "" ∧
    parseOptions c6BagUnknownKeys = {} := by
  obtain ⟨w1, w2, w3, w4, w5, w6, w7, w8, w9, w10, w11, w12, w13, w14, w15, w16, w17,
    w18, w19, w20, w21, w22, w23, _⟩ := claim_C6 c6BagWrongTypes
  obtain ⟨_, _, _, _, _, _, _, _, _, _, _, _, _, _, _, _, _, _, _, _, _, _, _, u24⟩ :=
    claim_C6 c6BagUnknownKeys
  exact ⟨w1 (by decide), w2 (by decide), w3 (by decide), w4 (by decide), w5 (by decide),
    w6 (by decide), w7 (by decide), w8 (by decide), w9 (by decide), w10 (by decide),
    w11 (by decide), w12 (by decide), w13 (by decide), w14 (by decide), w15 (by decide),
    w16 (by decide), w17 (by decide), w18 (by decide), w19 (by decide), w20 (by decide),
    w21 (by decide), w22 (by decide), w23 (by decide), u24 (by decide)⟩

/-- C4: for each negative-sentinel option, a caller who did not set
the option (key absent or value not a number) gets an engine parameter
dictionary without the corresponding key, rather than one carrying the
sentinel. -/
theorem claim_C4 (bag : OptionsBag) :
    (isNumVal (bag.lookup "neutralTemperature") = false →
      (buildRawOptions (parseOptions bag)).neutralTemperature = none) ∧
    (isNumVal (bag.lookup "neutralTint") = false →
      (buildRawOptions (parseOptions bag)).neutralTint = none) ∧
    (isNumVal (bag.lookup "colorNoiseReductionAmount") = false →
      (buildRawOptions (parseOptions bag)).colorNoiseReductionAmount = none) ∧
    (isNumVal (bag.lookup "luminanceNoiseReductionAmount") = false →
      (buildRawOptions (parseOptions bag)).luminanceNoiseReductionAmount = none) ∧
    (isNumVal (bag.lookup "contrastAmount") = false →
      (buildRawOptions (parseOptions bag)).contrast = none) ∧
    (isNumVal (bag.lookup "sharpnessAmount") = false →
      (buildRawOptions (parseOptions bag)).sharpness = none) ∧
    (isNumVal (bag.lookup "noiseReductionAmount") = false →
      (buildRawOptions (parseOptions bag)).noiseReductionAmount = none) ∧
    (isNumVal (bag.lookup "localToneMapAmount") = false →
      (buildRawOptions (parseOptions bag)).localToneMapAmount = none) := by
  refine ⟨fun h => ?_, fun h => ?_, fun h => ?_, fun h => ?_, fun h => ?_, fun h => ?_,
    fun h => ?_, fun h => ?_⟩ <;>
    simp [buildRawOptions, parseOptions, getNumberOption_wrongType _ _ _ h]
/-- C4 witness: with an empty options bag all eight sentinel-guarded
engine keys are absent. -/
theorem claim_C4_witness :
    (buildRawOptions (parseOptions [])).neutralTemperature = none ∧
    (buildRawOptions (parseOptions [])).neutralTint = none ∧
    (buildRawOptions (parseOptions [])).colorNoiseReductionAmount = none ∧
    (buildRawOptions (parseOptions [])).luminanceNoiseReductionAmount = none ∧
    (buildRawOptions (parseOptions [])).contrast = none ∧
    (buildRawOptions (parseOptions [])).sharpness = none ∧
    (buildRawOptions (parseOptions [])).noiseReductionAmount = none ∧
    (buildRawOptions (parseOptions [])).localToneMapAmount = none := by
  obtain ⟨h1, h2, h3, h4, h5, h6, h7, h8⟩ := claim_C4 []
  exact ⟨h1 (by decide), h2 (by decide), h3 (by decide), h4 (by decide), h5 (by decide),
    h6 (by decide), h7 (by decide), h8 (by decide)⟩
/-- C10: baselineExposure and boostShadowAmount are forwarded to the
engine exactly when nonzero, and explicitly passing 0.0 produces the
same engine parameter dictionary as omitting the option. -/
theorem claim_C10 (o : InternalConversionOptions) (bag : OptionsBag) :
    ((buildRawOptions o).baselineExposure = none ↔ o.baselineExposure = 0) ∧
    ((buildRawOptions o).boostShadowAmount = none ↔ o.boostShadowAmount = 0) ∧
    (bag.lookup "baselineExposure" = none →
      buildRawOptions (parseOptions (("baselineExposure", JSVal.num 0) :: bag)) =
        buildRawOptions (parseOptions bag)) ∧
    (bag.lookup "boostShadowAmount" = none →
      buildRawOptions (parseOptions (("boostShadowAmount", JSVal.num 0) :: bag)) =
        buildRawOptions (parseOptions bag)) := by
  refine ⟨?_, ?_, fun hb => ?_, fun hb => ?_⟩
  · constructor
    · intro h
      by_contra hne
      simp [buildRawOptions, hne] at h
    · intro h
      simp [buildRawOptions, h]
  · constructor
    · intro h
      by_contra hne
      simp [buildRawOptions, hne] at h
    · intro h
      simp [buildRawOptions, h]
  · have hparse : parseOptions (("baselineExposure", JSVal.num 0) :: bag) =
        parseOptions bag := by
      simp [parseOptions, getBoolOption, getNumberOption, getStringOption,
        List.lookup_cons, hb]
    rw [hparse]
  · have hparse : parseOptions (("boostShadowAmount", JSVal.num 0) :: bag) =
        parseOptions bag := by
      simp [parseOptions, getBoolOption, getNumberOption, getStringOption,
        List.lookup_cons, hb]
    rw [hparse]
/-- C10 witness: evaluated at the empty bag and at a bag setting
baselineExposure to 0. -/
theorem claim_C10_witness :
    ((buildRawOptions (parseOptions [])).baselineExposure = none ↔
      (parseOptions []).baselineExposure = 0) ∧
    buildRawOptions (parseOptions [("baselineExposure", JSVal.num 0)]) =
      buildRawOptions (parseOptions []) := by
  refine ⟨(claim_C10 (parseOptions []) []).1, ?_⟩
  exact (claim_C10 (parseOptions []) []).2.2.1 (by decide)

/-- Helper: an rgb-format run of the shared pipeline never passes a
properties dictionary to the Container Encoder. -/
lemma pipeline_rgb_no_addImage (isf : Bool) (o : InternalConversionOptions)
    (w : EngineWorld) (t0 : List Effect)
    (ht0 : ∀ p m, Effect.addImage p m ∉ t0) (p : EncodeProperties) (m : Bool) :
    Effect.addImage p m ∉ (pipelineAfterLoad isf "rgb" o w t0).2 := by
  have ht := ht0 p m
  unfold pipelineAfterLoad
  dsimp only
  simp only [beq_self_eq_true, reduceIte]
  split_ifs <;> by_cases hpe : o.preserveExifData = true <;>
    simp [List.mem_append, ht, hpe]
/-- C5 counterexample: a caller-supplied quality of -2 on a jpeg
conversion is not forwarded; the encoder receives the 0.9 default
instead of the caller value, so the claim as stated fails. -/
theorem claim_C5_counterexample :
    (parseOptions [("quality", JSVal.num (-2))]).quality = -2 ∧
    (formatProperties "jpeg"
        (parseOptions [("quality", JSVal.num (-2))])).lossyCompressionQuality =
      some (9/10) ∧
    ((9 : Rat)/10) ≠ (-2 : Rat) := by
  refine ⟨by simp [parseOptions, getNumberOption], ?_, by norm_num⟩
  norm_num [formatProperties, lossyFormats, parseOptions, getNumberOption]
/-- C5 (amended): the lossy-compression-quality property is set
exactly for jpeg/jpg/heif/heic/jpeg2000/jp2; its value is the
caller-supplied quality when that quality is nonnegative and 0.9
otherwise (also when the caller supplied a negative quality); for
png/tiff/tif no quality property is set, and an rgb conversion never
invokes the encoder with a properties dictionary at all. -/
theorem claim_C5 (format : String) (o : InternalConversionOptions)
    (input : NativeInput) (bag : Option OptionsBag) (w : EngineWorld) :
    ((formatProperties format o).lossyCompressionQuality.isSome ↔
      lossyFormats.contains format = true) ∧
    (o.quality ≥ 0 → lossyFormats.contains format = true →
      (formatProperties format o).lossyCompressionQuality = some o.quality) ∧
    (o.quality < 0 → lossyFormats.contains format = true →
      (formatProperties format o).lossyCompressionQuality = some (9/10)) ∧
    (format = "png" ∨ format = "tiff" ∨ format = "tif" →
      (formatProperties format o).lossyCompressionQuality = none) ∧
    (∀ p m, Effect.addImage p m ∉ (ConvertRaw input "rgb" bag w).2) ∧
    (∀ p m, Effect.addImage p m ∉ (ConvertRawAsyncExecute input "rgb" o w).2) := by
  refine ⟨?_, fun hq hl => ?_, fun hq hl => ?_, fun hf => ?_, fun p m => ?_, fun p m => ?_⟩
  · constructor
    · intro h
      by_contra hl
      have hnone : (formatProperties format o).lossyCompressionQuality = none := by
        simp only [formatProperties]
        exact if_neg hl
      rw [hnone] at h
      simp at h
    · intro hl
      have hm : format ∈ lossyFormats := by simpa using hl
      simp [formatProperties, hm]
  · have hm : format ∈ lossyFormats := by simpa using hl
    simp [formatProperties, hm, hq]
  · have hm : format ∈ lossyFormats := by simpa using hl
    simp [formatProperties, hm, not_le.mpr hq]
  · rcases hf with rfl | rfl | rfl <;> simp [formatProperties, lossyFormats]
  · unfold ConvertRaw
    dsimp only
    cases input with
    | path s =>
        by_cases hs : s = ""
        · simp [hs]
        · by_cases hr : w.fileReadOk = false
          · simp [hs, hr]
          · simp only [if_neg hs, if_neg hr]
            exact pipeline_rgb_no_addImage _ _ _ _ (fun p m => by simp) p m
    | buffer len =>
        by_cases hl0 : len = 0
        · simp [hl0]
        · simp only [if_neg hl0]
          exact pipeline_rgb_no_addImage _ _ _ _ (fun p m => by simp) p m
    | other => simp
  · unfold ConvertRawAsyncExecute
    cases input with
    | path s =>
        by_cases hr : w.fileReadOk = false
        · simp [hr]
        · simp only [if_neg hr]
          exact pipeline_rgb_no_addImage _ _ _ _ (fun p m => by simp) p m
    | buffer len =>
        by_cases hl0 : len = 0
        · simp [hl0]
        · simp only [if_neg hl0]
          exact pipeline_rgb_no_addImage _ _ _ _ (fun p m => by simp) p m
    | other => simp

/-- C5 witness: concrete evaluations of the amended statement for
jpeg with and without a caller quality, png, and an rgb run. -/
theorem claim_C5_witness :
    ((formatProperties "jpeg" (parseOptions [])).lossyCompressionQuality.isSome ↔
      lossyFormats.contains "jpeg" = true) ∧
    (formatProperties "jpeg"
        (parseOptions [("quality", JSVal.num 2)])).lossyCompressionQuality =
      some ((parseOptions [("quality", JSVal.num 2)]).quality) ∧
    (formatProperties "jpeg" (parseOptions [])).lossyCompressionQuality = some (9/10) ∧
    (formatProperties "png" (parseOptions [])).lossyCompressionQuality = none ∧
    (∀ p m, Effect.addImage p m ∉
      (ConvertRaw (NativeInput.path "in.arw") "rgb" (some [])
        ⟨true, true, true, true, true, false, true, true, true, true⟩).2) := by
  refine ⟨(claim_C5 "jpeg" (parseOptions []) NativeInput.other none
      ⟨true, true, true, true, true, false, true, true, true, true⟩).1, ?_, ?_, ?_, ?_⟩
  · exact (claim_C5 "jpeg" (parseOptions [("quality", JSVal.num 2)]) NativeInput.other none
      ⟨true, true, true, true, true, false, true, true, true, true⟩).2.1 (by decide) (by decide)
  · exact (claim_C5 "jpeg" (parseOptions []) NativeInput.other none
      ⟨true, true, true, true, true, false, true, true, true, true⟩).2.2.1 (by decide) (by decide)
  · exact (claim_C5 "png" (parseOptions []) NativeInput.other none
      ⟨true, true, true, true, true, false, true, true, true, true⟩).2.2.2.1 (by decide)
  · exact (claim_C5 "rgb" (parseOptions []) (NativeInput.path "in.arw") (some [])
      ⟨true, true, true, true, true, false, true, true, true, true⟩).2.2.2.2.1

/-- Helper: the RGBA-to-RGB loop turns 4n source bytes into 3n output
bytes. -/
lemma stripAlpha_length (n : Nat) (l : List Nat) (h : l.length = 4 * n) :
    (stripAlpha l).length = 3 * n := by
  induction n generalizing l with
  | zero =>
      cases l with
      | nil => simp [stripAlpha]
      | cons a t => simp at h
  | succ k ih =>
      match l with
      | [] => simp at h
      | [a] => simp at h; omega
      | [a, b] => simp at h; omega
      | [a, b, c] => simp at h; omega
      | a :: b :: c :: d :: rest =>
          simp only [stripAlpha, List.length_cons] at h ⊢
          have hrest : rest.length = 4 * k := by omega
          rw [ih rest hrest]
          omega
/-- C3: RGB extraction always yields exactly width * height * 3 bytes,
and whenever the direct-data-provider path produces an output it is
byte-identical to the bitmap-context fallback output for the same
RenderedImage. -/
theorem claim_C3 (img : CGImage) :
    (ExtractRgbData img).length = img.width * img.height * 3 ∧
    ∀ out, extractRgbDirect img = some out → out = extractRgbFallback img := by
  have hfall : (extractRgbFallback img).length = img.width * img.height * 3 := by
    have hl := stripAlpha_length (img.width * img.height) img.pixels
      (by rw [img.pixels_len]; ring)
    unfold extractRgbFallback
    omega
  have hdir : ∀ out, extractRgbDirect img = some out → out = extractRgbFallback img := by
    intro out hout
    unfold extractRgbDirect at hout
    cases hp : img.providerData with
    | none => rw [hp] at hout; simp at hout
    | some d =>
        rw [hp] at hout
        dsimp only at hout
        by_cases hlen : d.length = img.width * img.height * 4
        · rw [if_pos hlen] at hout
          have hd := img.providerData_pixels d hp hlen
          have : stripAlpha d = out := Option.some.inj hout
          rw [← this, hd]
          rfl
        · rw [if_neg hlen] at hout
          simp at hout
  refine ⟨?_, hdir⟩
  unfold ExtractRgbData
  cases hdp : extractRgbDirect img with
  | none => exact hfall
  | some out => rw [hdir out hdp]; exact hfall
/-- C3 witness: a concrete 1-by-1 RGBA image on which the direct path
fires and agrees with the fallback. -/
theorem claim_C3_witness :
    (ExtractRgbData
        ⟨1, 1, [10, 20, 30, 40], by decide, some [10, 20, 30, 40],
          fun d hd _ => by cases hd; rfl⟩).length = 1 * 1 * 3 ∧
    extractRgbDirect
        ⟨1, 1, [10, 20, 30, 40], by decide, some [10, 20, 30, 40],
          fun d hd _ => by cases hd; rfl⟩ = some [10, 20, 30] ∧
    [10, 20, 30] = extractRgbFallback
        ⟨1, 1, [10, 20, 30, 40], by decide, some [10, 20, 30, 40],
          fun d hd _ => by cases hd; rfl⟩ := by
  refine ⟨(claim_C3 _).1, by decide, ?_⟩
  exact (claim_C3 _).2 [10, 20, 30] (by decide)

/-- Helper: once the temp file is written, every run of the shared
pipeline traces the staging prefix (write, optional metadata read,
filter creation, temp-file removal) followed by some tail of
render/encode effects. -/
lemma pipeline_cases (isf : Bool) (format : String) (o : InternalConversionOptions)
    (w : EngineWorld) (t0 : List Effect) (hw : w.tempWriteOk = true) :
    ∃ rest : List Effect,
      (pipelineAfterLoad isf format o w t0).2 =
        t0 ++ [Effect.writeTemp] ++
          (if o.preserveExifData = true then [Effect.readSourceMetadata] else []) ++
          [Effect.createFilter (buildRawOptions o), Effect.removeTemp] ++ rest ∧
      ∀ e ∈ rest, e = Effect.renderCGImage ∨ e = Effect.extractRgb ∨
        e = Effect.createDestination ∨
        e = Effect.addImage (formatProperties format o)
          (o.preserveExifData && w.sourceProps) ∨
        e = Effect.finalizeDest := by
  unfold pipelineAfterLoad
  dsimp only
  rw [if_neg (show ¬ (w.tempWriteOk = false) by simp [hw])]
  by_cases h2 : w.filterOk = false
  · rw [if_pos h2]
    exact ⟨[], by simp [List.append_assoc], by simp⟩
  rw [if_neg h2]
  by_cases h3 : w.outputImageOk = false
  · rw [if_pos h3]
    exact ⟨[], by simp [List.append_assoc], by simp⟩
  rw [if_neg h3]
  by_cases h4 : w.extentEmpty = true
  · rw [if_pos h4]
    exact ⟨[], by simp [List.append_assoc], by simp⟩
  rw [if_neg h4]
  by_cases h5 : w.cgImageOk = false
  · rw [if_pos h5]
    exact ⟨[Effect.renderCGImage], by simp [List.append_assoc], by simp⟩
  rw [if_neg h5]
  by_cases h6 : (format == "rgb") = true
  · rw [if_pos h6]
    by_cases h7 : w.rgbExtractOk = true
    · rw [if_pos h7]
      exact ⟨[Effect.renderCGImage, Effect.extractRgb], by simp [List.append_assoc], by simp⟩
    · rw [if_neg h7]
      exact ⟨[Effect.renderCGImage, Effect.extractRgb], by simp [List.append_assoc], by simp⟩
  rw [if_neg h6]
  by_cases h8 : (format == "jpeg" || format == "jpg" || format == "png" || format == "tiff" ||
      format == "tif" || format == "jpeg2000" || format == "jp2" || format == "heif" ||
      format == "heic") = true
  · rw [if_pos h8]
    by_cases h9 : w.destinationOk = false
    · rw [if_pos h9]
      exact ⟨[Effect.renderCGImage, Effect.createDestination],
        by simp [List.append_assoc], by simp⟩
    rw [if_neg h9]
    by_cases h10 : w.finalizeOk = false
    · rw [if_pos h10]
      exact ⟨[Effect.renderCGImage, Effect.createDestination,
        Effect.addImage (formatProperties format o) (o.preserveExifData && w.sourceProps),
        Effect.finalizeDest], by simp [List.append_assoc], by simp⟩
    · rw [if_neg h10]
      exact ⟨[Effect.renderCGImage, Effect.createDestination,
        Effect.addImage (formatProperties format o) (o.preserveExifData && w.sourceProps),
        Effect.finalizeDest], by simp [List.append_assoc], by simp⟩
  · rw [if_neg h8]
    exact ⟨[Effect.renderCGImage], by simp [List.append_assoc], by simp⟩

/-- Input-resolution success condition of the synchronous native entry
point: a non-empty readable path, or a non-empty Buffer. -/
def ConvertRawLoadOk : NativeInput → EngineWorld → Bool
  | NativeInput.path s, w => (s != "") && w.fileReadOk
  | NativeInput.buffer len, _ => len != 0
  | NativeInput.other, _ => false
/-- Input-resolution success condition of the async worker body: a
readable path, or a non-empty Buffer copy. -/
def ExecuteLoadOk : NativeInput → EngineWorld → Bool
  | NativeInput.path _, w => w.fileReadOk
  | NativeInput.buffer len, _ => len != 0
  | NativeInput.other, _ => false
/-- Helper: every pipeline run that wrote the temp file both records
the write and removes the file. -/
lemma temp_mem_pipeline (isf : Bool) (format : String) (o : InternalConversionOptions)
    (w : EngineWorld) (t0 : List Effect) (hw : w.tempWriteOk = true) :
    Effect.writeTemp ∈ (pipelineAfterLoad isf format o w t0).2 ∧
    Effect.removeTemp ∈ (pipelineAfterLoad isf format o w t0).2 := by
  obtain ⟨rest, htr, _⟩ := pipeline_cases isf format o w t0 hw
  rw [htr]
  simp [List.mem_append]
/-- Helper: after successful staging, the source metadata dictionary
is read if and only if preserveExifData is set. -/
lemma readSourceMetadata_mem_pipeline (isf : Bool) (format : String)
    (o : InternalConversionOptions) (w : EngineWorld) (t0 : List Effect)
    (ht0 : Effect.readSourceMetadata ∉ t0) (hw : w.tempWriteOk = true) :
    (Effect.readSourceMetadata ∈ (pipelineAfterLoad isf format o w t0).2 ↔
      o.preserveExifData = true) := by
  obtain ⟨rest, htr, hrest⟩ := pipeline_cases isf format o w t0 hw
  rw [htr]
  by_cases hpe : o.preserveExifData = true
  · simp [hpe, List.mem_append]
  · rw [Bool.not_eq_true] at hpe
    rw [if_neg (show ¬ (o.preserveExifData = true) by simp [hpe])]
    simp only [hpe, Bool.false_eq_true, iff_false]
    intro hm
    simp only [List.mem_append] at hm
    rcases hm with (((hm1 | hm2) | hm3) | hm4) | hm5
    · exact ht0 hm1
    · simp at hm2
    · simp at hm3
    · simp at hm4
    · rcases hrest _ hm5 with h | h | h | h | h <;> simp at h
/-- C8: whenever the uniquely-named staging file was successfully
written, both native entry points remove it before returning, on every
exit path (success and all render/encode failures alike). -/
theorem claim_C8 (input : NativeInput) (format : String) (bag : OptionsBag)
    (w : EngineWorld) (hw : w.tempWriteOk = true)
    (hsync : ConvertRawLoadOk input w = true)
    (hasync : ExecuteLoadOk input w = true) :
    (Effect.writeTemp ∈ (ConvertRaw input format (some bag) w).2 ∧
      Effect.removeTemp ∈ (ConvertRaw input format (some bag) w).2) ∧
    (Effect.writeTemp ∈ (ConvertRawAsyncExecute input format (parseOptions bag) w).2 ∧
      Effect.removeTemp ∈ (ConvertRawAsyncExecute input format (parseOptions bag) w).2) := by
  constructor
  · cases input with
    | path s =>
        unfold ConvertRaw
        dsimp only
        simp only [ConvertRawLoadOk, Bool.and_eq_true, bne_iff_ne] at hsync
        rw [if_neg hsync.1, if_neg (show ¬ (w.fileReadOk = false) by simp [hsync.2])]
        exact temp_mem_pipeline _ _ _ _ _ hw
    | buffer len =>
        unfold ConvertRaw
        dsimp only
        simp only [ConvertRawLoadOk, bne_iff_ne] at hsync
        rw [if_neg hsync]
        exact temp_mem_pipeline _ _ _ _ _ hw
    | other => simp [ConvertRawLoadOk] at hsync
  · cases input with
    | path s =>
        unfold ConvertRawAsyncExecute
        dsimp only
        simp only [ExecuteLoadOk] at hasync
        rw [if_neg (show ¬ (w.fileReadOk = false) by simp [hasync])]
        exact temp_mem_pipeline _ _ _ _ _ hw
    | buffer len =>
        unfold ConvertRawAsyncExecute
        dsimp only
        simp only [ExecuteLoadOk, bne_iff_ne] at hasync
        rw [if_neg hasync]
        exact temp_mem_pipeline _ _ _ _ _ hw
    | other => simp [ExecuteLoadOk] at hasync
/-- C8 witness: a successful jpeg conversion from a path writes and
removes the staging file in both pipelines. -/
theorem claim_C8_witness :
    Effect.writeTemp ∈
      (ConvertRaw (NativeInput.path "in.arw") "jpeg" (some [])
        ⟨true, true, true, true, true, false, true, true, true, true⟩).2 ∧
    Effect.removeTemp ∈
      (ConvertRaw (NativeInput.path "in.arw") "jpeg" (some [])
        ⟨true, true, true, true, true, false, true, true, true, true⟩).2 ∧
    Effect.removeTemp ∈
      (ConvertRawAsyncExecute (NativeInput.path "in.arw") "jpeg" (parseOptions [])
        ⟨true, true, true, true, true, false, true, true, true, true⟩).2 := by
  obtain ⟨⟨h1, h2⟩, ⟨h3, h4⟩⟩ := claim_C8 (NativeInput.path "in.arw") "jpeg" []
    ⟨true, true, true, true, true, false, true, true, true, true⟩
    (by decide) (by decide) (by decide)
  exact ⟨h1, h2, h4⟩

/-- A world in which every external call succeeds and the rendered
extent is non-empty. -/
def allOkWorld : EngineWorld :=
  ⟨true, true, true, true, true, false, true, true, true, true⟩
/-- C1 counterexample: with extractMetadata set and preserveExifData
unset, neither native pipeline ever reads the source metadata
dictionary, although the claim requires it to be read; extraction is
left with no source metadata.  The claim as stated is false. -/
theorem claim_C1_counterexample :
    (parseOptions [("extractMetadata", JSVal.bool true),
        ("preserveExifData", JSVal.bool false)]).extractMetadata = true ∧
    (parseOptions [("extractMetadata", JSVal.bool true),
        ("preserveExifData", JSVal.bool false)]).preserveExifData = false ∧
    Effect.readSourceMetadata ∉
      (ConvertRaw (NativeInput.path "in.arw") "jpeg"
        (some [("extractMetadata", JSVal.bool true),
          ("preserveExifData", JSVal.bool false)]) allOkWorld).2 ∧
    Effect.readSourceMetadata ∉
      (ConvertRawAsyncExecute (NativeInput.path "in.arw") "jpeg"
        (parseOptions [("extractMetadata", JSVal.bool true),
          ("preserveExifData", JSVal.bool false)]) allOkWorld).2 := by
  refine ⟨by decide, by decide, ?_, ?_⟩ <;>
    · intro hm
      simp only [ConvertRaw, ConvertRawAsyncExecute, allOkWorld] at hm
      revert hm
      decide
/-- C1 (amended): in both pipelines, once the input is resolved and
staged, the source metadata dictionary is read if and only if
preserveExifData is set (default true); extractMetadata alone does not
cause it to be read. -/
theorem claim_C1_amended (input : NativeInput) (format : String) (bag : OptionsBag)
    (w : EngineWorld) (hw : w.tempWriteOk = true)
    (hsync : ConvertRawLoadOk input w = true)
    (hasync : ExecuteLoadOk input w = true) :
    (Effect.readSourceMetadata ∈ (ConvertRaw input format (some bag) w).2 ↔
      (parseOptions bag).preserveExifData = true) ∧
    (Effect.readSourceMetadata ∈
        (ConvertRawAsyncExecute input format (parseOptions bag) w).2 ↔
      (parseOptions bag).preserveExifData = true) := by
  constructor
  · cases input with
    | path s =>
        unfold ConvertRaw
        dsimp only
        simp only [ConvertRawLoadOk, Bool.and_eq_true, bne_iff_ne] at hsync
        rw [if_neg hsync.1, if_neg (show ¬ (w.fileReadOk = false) by simp [hsync.2])]
        exact readSourceMetadata_mem_pipeline _ _ _ _ _ (by simp) hw
    | buffer len =>
        unfold ConvertRaw
        dsimp only
        simp only [ConvertRawLoadOk, bne_iff_ne] at hsync
        rw [if_neg hsync]
        exact readSourceMetadata_mem_pipeline _ _ _ _ _ (by simp) hw
    | other => simp [ConvertRawLoadOk] at hsync
  · cases input with
    | path s =>
        unfold ConvertRawAsyncExecute
        dsimp only
        simp only [ExecuteLoadOk] at hasync
        rw [if_neg (show ¬ (w.fileReadOk = false) by simp [hasync])]
        exact readSourceMetadata_mem_pipeline _ _ _ _ _ (by simp) hw
    | buffer len =>
        unfold ConvertRawAsyncExecute
        dsimp only
        simp only [ExecuteLoadOk, bne_iff_ne] at hasync
        rw [if_neg hasync]
        exact readSourceMetadata_mem_pipeline _ _ _ _ _ (by simp) hw
    | other => simp [ExecuteLoadOk] at hasync
/-- C1 witness: a successful jpeg conversion with default options
(preserveExifData true) reads the metadata dictionary in both
pipelines. -/
theorem claim_C1_amended_witness :
    (Effect.readSourceMetadata ∈
        (ConvertRaw (NativeInput.path "in.arw") "jpeg" (some []) allOkWorld).2 ↔
      (parseOptions []).preserveExifData = true) ∧
    (Effect.readSourceMetadata ∈
        (ConvertRawAsyncExecute (NativeInput.path "in.arw") "jpeg"
          (parseOptions []) allOkWorld).2 ↔
      (parseOptions []).preserveExifData = true) :=
  claim_C1_amended (NativeInput.path "in.arw") "jpeg" [] allOkWorld
    (by decide) (by decide) (by decide)

/-- Whether the native input is the file-path variant. -/
def isPathInput : NativeInput → Bool
  | NativeInput.path _ => true
  | _ => false
/-- Effects of resolving the input: a path input reads the file, a
buffer does not. -/
def loadTrace : NativeInput → List Effect
  | NativeInput.path _ => [Effect.readInputFile]
  | _ => []
/-- Helper: when the input resolves, the synchronous entry point is
the shared pipeline on the parsed options. -/
lemma ConvertRaw_loadOk_eq (input : NativeInput) (format : String) (bag : OptionsBag)
    (w : EngineWorld) (hsync : ConvertRawLoadOk input w = true) :
    ConvertRaw input format (some bag) w =
      pipelineAfterLoad (isPathInput input) format (parseOptions bag) w (loadTrace input) := by
  cases input with
  | path s =>
      unfold ConvertRaw
      dsimp only
      simp only [ConvertRawLoadOk, Bool.and_eq_true, bne_iff_ne] at hsync
      rw [if_neg hsync.1, if_neg (show ¬ (w.fileReadOk = false) by simp [hsync.2])]
      rfl
  | buffer len =>
      unfold ConvertRaw
      dsimp only
      simp only [ConvertRawLoadOk, bne_iff_ne] at hsync
      rw [if_neg hsync]
      rfl
  | other => simp [ConvertRawLoadOk] at hsync
/-- Helper: when the input resolves, the async worker body is the
shared pipeline. -/
lemma Execute_loadOk_eq (input : NativeInput) (format : String)
    (o : InternalConversionOptions) (w : EngineWorld)
    (hasync : ExecuteLoadOk input w = true) :
    ConvertRawAsyncExecute input format o w =
      pipelineAfterLoad (isPathInput input) format o w (loadTrace input) := by
  cases input with
  | path s =>
      unfold ConvertRawAsyncExecute
      dsimp only
      simp only [ExecuteLoadOk] at hasync
      rw [if_neg (show ¬ (w.fileReadOk = false) by simp [hasync])]
      rfl
  | buffer len =>
      unfold ConvertRawAsyncExecute
      dsimp only
      simp only [ExecuteLoadOk, bne_iff_ne] at hasync
      rw [if_neg hasync]
      rfl
  | other => simp [ExecuteLoadOk] at hasync
/-- Helper: with filter and output image available but an empty
extent, the pipeline stops with exactly the empty-extent error right
after staging cleanup. -/
lemma pipeline_emptyExtent (isf : Bool) (format : String) (o : InternalConversionOptions)
    (w : EngineWorld) (t0 : List Effect) (hw : w.tempWriteOk = true)
    (hf : w.filterOk = true) (ho : w.outputImageOk = true) (he : w.extentEmpty = true) :
    pipelineAfterLoad isf format o w t0 =
      (.error "Output image has empty extent",
        ((t0 ++ [Effect.writeTemp]) ++
          (if o.preserveExifData = true then [Effect.readSourceMetadata] else [])) ++
          [Effect.createFilter (buildRawOptions o), Effect.removeTemp]) := by
  unfold pipelineAfterLoad
  dsimp only
  rw [if_neg (show ¬ (w.tempWriteOk = false) by simp [hw]),
    if_neg (show ¬ (w.filterOk = false) by simp [hf]),
    if_neg (show ¬ (w.outputImageOk = false) by simp [ho]),
    if_pos he]
/-- Helper: on the empty-extent path the result is the empty-extent
error and the trace holds nothing beyond input resolution and
staging. -/
lemma emptyExtent_result (isf : Bool) (format : String) (o : InternalConversionOptions)
    (w : EngineWorld) (t0 : List Effect) (hw : w.tempWriteOk = true)
    (hf : w.filterOk = true) (ho : w.outputImageOk = true) (he : w.extentEmpty = true) :
    (pipelineAfterLoad isf format o w t0).1 = .error "Output image has empty extent" ∧
    ∀ x ∈ (pipelineAfterLoad isf format o w t0).2,
      x ∈ t0 ∨ x = Effect.writeTemp ∨ x = Effect.readSourceMetadata ∨
      x = Effect.createFilter (buildRawOptions o) ∨ x = Effect.removeTemp := by
  rw [pipeline_emptyExtent isf format o w t0 hw hf ho he]
  refine ⟨rfl, ?_⟩
  intro x hx
  by_cases hpe : o.preserveExifData = true <;>
    simp only [hpe, Bool.false_eq_true, if_true, if_false, List.mem_append,
      List.mem_cons, List.mem_singleton, List.not_mem_nil, or_false, false_or,
      reduceIte] at hx <;>
    tauto

/-- C7: an empty rendered extent makes both entry points fail with
exactly "Output image has empty extent" - a message distinct from
every I/O, filter-creation, render and encode message - before any
CGImage rendering, RGB extraction or encoding work happens. -/
theorem claim_C7 (input : NativeInput) (format : String) (bag : OptionsBag)
    (w : EngineWorld) (hw : w.tempWriteOk = true) (hf : w.filterOk = true)
    (ho : w.outputImageOk = true) (he : w.extentEmpty = true)
    (hsync : ConvertRawLoadOk input w = true)
    (hasync : ExecuteLoadOk input w = true) :
    (ConvertRaw input format (some bag) w).1 =
      .error "Output image has empty extent" ∧
    (ConvertRawAsyncExecute input format (parseOptions bag) w).1 =
      .error "Output image has empty extent" ∧
    Effect.renderCGImage ∉ (ConvertRaw input format (some bag) w).2 ∧
    Effect.createDestination ∉ (ConvertRaw input format (some bag) w).2 ∧
    Effect.finalizeDest ∉ (ConvertRaw input format (some bag) w).2 ∧
    Effect.extractRgb ∉ (ConvertRaw input format (some bag) w).2 ∧
    (∀ p m, Effect.addImage p m ∉ (ConvertRaw input format (some bag) w).2) ∧
    Effect.renderCGImage ∉
      (ConvertRawAsyncExecute input format (parseOptions bag) w).2 ∧
    Effect.createDestination ∉
      (ConvertRawAsyncExecute input format (parseOptions bag) w).2 ∧
    Effect.finalizeDest ∉
      (ConvertRawAsyncExecute input format (parseOptions bag) w).2 ∧
    Effect.extractRgb ∉
      (ConvertRawAsyncExecute input format (parseOptions bag) w).2 ∧
    (∀ p m, Effect.addImage p m ∉
      (ConvertRawAsyncExecute input format (parseOptions bag) w).2) ∧
    "Output image has empty extent" ∉
      ["Failed to read file from path", "Failed to write temp file",
        "Failed to create CIRAWFilter from image data",
        "Failed to get output image from RAW filter",
        "Failed to create CGImage from CIImage", "Failed to create image destination",
        "Failed to finalize image destination", "Failed to extract RGB data from image",
        "Input buffer is empty", "File path cannot be empty", "Invalid buffer data",
        "First argument must be a Buffer or file path string"] := by
  have hseq := ConvertRaw_loadOk_eq input format bag w hsync
  have haeq := Execute_loadOk_eq input format (parseOptions bag) w hasync
  obtain ⟨hs1, hs2⟩ := emptyExtent_result (isPathInput input) format (parseOptions bag) w
    (loadTrace input) hw hf ho he
  have hload : ∀ e ∈ loadTrace input, e = Effect.readInputFile := by
    cases input <;> simp [loadTrace]
  rw [hseq, haeq]
  refine ⟨hs1, hs1, ?_, ?_, ?_, ?_, ?_, ?_, ?_, ?_, ?_, ?_, by decide⟩ <;>
    first
      | (intro hm
         rcases hs2 _ hm with h | h | h | h | h <;>
           first
             | (have h2 := hload _ h; simp at h2)
             | simp at h)
      | (intro p m hm
         rcases hs2 _ hm with h | h | h | h | h <;>
           first
             | (have h2 := hload _ h; simp at h2)
             | simp at h)
/-- C7 witness: a conversion of undecodable bytes (empty extent world)
fails with precisely the empty-extent message on both paths. -/
theorem claim_C7_witness :
    (ConvertRaw (NativeInput.path "not-raw.txt") "jpeg" (some [])
        ⟨true, true, true, true, true, true, true, true, true, true⟩).1 =
      .error "Output image has empty extent" ∧
    (ConvertRawAsyncExecute (NativeInput.path "not-raw.txt") "jpeg" (parseOptions [])
        ⟨true, true, true, true, true, true, true, true, true, true⟩).1 =
      .error "Output image has empty extent" := by
  obtain ⟨h1, h2, _⟩ := claim_C7 (NativeInput.path "not-raw.txt") "jpeg" []
    ⟨true, true, true, true, true, true, true, true, true, true⟩
    (by decide) (by decide) (by decide) (by decide) (by decide) (by decide)
  exact ⟨h1, h2⟩

end Theorems

end RawConvert
